import Mathlib

/-!
# Portfolio monitor dashboard script (`static/js/main.js`)

A shallow embedding of the browser-side script: the two script globals, the
document parts the script touches, the host timers, and every function of the
script that reads or writes them.  Host calls whose result the script cannot
determine (the modal library, `fetch`, `response.json()`) are resolved by an
outcome record, so an `async` function is run to completion as one state
transformer.
-/

namespace Monitor

/-- A thrown JavaScript error; only `error.message` is ever read. -/
structure JsError where
  message : String
deriving DecidableEq, Repr

/-- The values a property read on the `icons` object literal can produce. -/
inductive JsValue where
  | undefined
  | string (s : String)
  | builtin (property : String)
deriving DecidableEq, Repr

/-- JavaScript truthiness, as used by `||`. -/
def JsValue.truthy : JsValue → Bool
  | .undefined => false
  | .string s => s != ""
  | .builtin _ => true

/-- Property names every plain object inherits from `Object.prototype`
(functions, and the `__proto__` accessor whose getter returns an object). -/
def objectPrototypeProps : List String :=
  ["constructor", "__defineGetter__", "__defineSetter__", "hasOwnProperty",
   "__lookupGetter__", "__lookupSetter__", "isPrototypeOf", "propertyIsEnumerable",
   "toString", "valueOf", "__proto__", "toLocaleString"]

/-- The read `obj[key]` on an object literal with the given own string
properties: an own property wins, then the prototype chain, else `undefined`. -/
def getProp (own : List (String × String)) (key : String) : JsValue :=
  match own.lookup key with
  | some v => .string v
  | none => if key ∈ objectPrototypeProps then .builtin key else .undefined

/-- The object literal `icons` of `getAlertIcon`. -/
def icons : List (String × String) :=
  [("success", "check-circle"),
   ("danger", "exclamation-triangle"),
   ("warning", "exclamation-circle"),
   ("info", "info-circle"),
   ("primary", "info-circle")]

/-- The function `getAlertIcon(type)`: `icons[type] || 'info-circle'`. -/
def getAlertIcon (type : String) : JsValue :=
  let v := getProp icons type
  if v.truthy then v else .string "info-circle"

/-! ## Data model -/

/-- One entry of `company_mentions`. -/
structure CompanyMention where
  company_name : String
  count : Int
deriving DecidableEq, Repr

/-- One entry of `source_mentions`. -/
structure SourceMention where
  source : String
  count : Int
deriving DecidableEq, Repr

/-- The object `response.json()` resolves to on a stats request.  A count is
the integer written in the response; the script holds it as the nearest
double (`jsNumberToString`).  A sequence field is `none` when the property is
missing (`undefined`), in which case reading `.length` or calling `.slice` on
it throws a `TypeError`. -/
structure StatsData where
  total_mentions : Int
  recent_mentions : Int
  company_mentions : Option (List CompanyMention)
  source_mentions : Option (List SourceMention)
deriving DecidableEq, Repr

/-- A well-formed stats payload: both sequences are present. -/
structure StatsSnapshot where
  total_mentions : Int
  recent_mentions : Int
  company_mentions : List CompanyMention
  source_mentions : List SourceMention
deriving DecidableEq, Repr

/-- A snapshot, seen as the parsed response body. -/
def StatsSnapshot.toData (s : StatsSnapshot) : StatsData :=
  { total_mentions := s.total_mentions
    recent_mentions := s.recent_mentions
    company_mentions := some s.company_mentions
    source_mentions := some s.source_mentions }

/-- The object `response.json()` resolves to on a monitoring request;
`message` is `none` when the property is missing. -/
structure MonitoringResult where
  success : Bool
  message : Option String
deriving DecidableEq, Repr

/-- What a pending host timer runs when it fires. -/
inductive TimerCallback where
  /-- The arrow function `() => { refreshStats(); }` of `startAutoRefresh`. -/
  | refreshTick
  /-- The arrow function `() => { if (alertDiv.parentNode) { alertDiv.remove(); } }`
  of `showAlert`, closed over the element it created. -/
  | removeAlert (node : Nat)
  /-- The arrow function `() => { location.reload(); }` of `runMonitoring`. -/
  | reloadPage
deriving DecidableEq, Repr

/-- A pending host timer. -/
structure Timer where
  id : Nat
  /-- Set by `setInterval`, not by `setTimeout`. -/
  repeating : Bool
  delay : Nat
  /-- Clock value at which the callback next becomes runnable. -/
  due : Nat
  callback : TimerCallback
deriving DecidableEq, Repr

/-- The overlay element built by `showAlert`.  Its content is assigned through
`innerHTML` from a template with two interpolations: `icon` is the value
interpolated into the class of the `<i>` element, `message` the string
interpolated after that element.  The string is markup: the page shows what
the HTML parser makes of it (`AlertNode.textContent`). -/
structure AlertNode where
  id : Nat
  className : String
  style : List (String × String)
  icon : JsValue
  message : String
deriving DecidableEq, Repr

/-- A chart instance (`window.companyChart`, `window.sourceChart`): its label
set, the series `data.datasets[0].data`, and how often `update()` ran. -/
structure Chart where
  labels : List String
  data : List Int
  updates : Nat
deriving DecidableEq, Repr

/-- Operations performed on the loading modal. -/
inductive ModalOp where
  | created
  | shown
  | hidden
deriving DecidableEq, Repr

/-- Script globals, the document parts the script touches, and the host
resources it uses. -/
structure World where
  /-- Global `let refreshInterval;` (`none` is `undefined`). -/
  refreshInterval : Option Nat
  /-- Global `let isMonitoring = false;`. -/
  isMonitoring : Bool
  /-- Host clock, in milliseconds. -/
  now : Nat
  /-- Pending timers, in registration order. -/
  timers : List Timer
  /-- Number of timer ids handed out so far. -/
  timerCount : Nat
  /-- Overlay elements attached to `document.body`, in document order. -/
  body : List AlertNode
  /-- Number of elements created so far. -/
  nodeCount : Nat
  /-- Text of the first `.card.bg-primary .card-title`, when there is one. -/
  cardPrimary : Option String
  /-- Text of the first `.card.bg-success .card-title`, when there is one. -/
  cardSuccess : Option String
  /-- Text of the first `.card.bg-warning .card-title`, when there is one. -/
  cardWarning : Option String
  companyChart : Option Chart
  sourceChart : Option Chart
  /-- URLs passed to `fetch`, oldest first. -/
  requests : List String
  /-- Operations on the loading modal that returned normally, oldest first. -/
  modalOps : List ModalOp
  /-- Number of `location.reload()` calls. -/
  reloads : Nat
  /-- Console lines as (level, text), oldest first. -/
  console : List (String × String)
deriving DecidableEq, Repr

/-- The page as the script finds it when it is loaded, with no cards and no
charts. -/
def World.initial : World :=
  { refreshInterval := none, isMonitoring := false, now := 0, timers := [],
    timerCount := 0, body := [], nodeCount := 0, cardPrimary := none,
    cardSuccess := none, cardWarning := none, companyChart := none,
    sourceChart := none, requests := [], modalOps := [], reloads := 0,
    console := [] }

/-- Script code: it may throw, and the state it reached survives the throw. -/
abbrev Js := ExceptT JsError (StateM World)

/-- Runs script code from a state: the completion and the state reached. -/
def exec {α : Type} (code : Js α) (w : World) : Except JsError α × World :=
  code.run.run w

/-! ## Host operations -/

/-- Completes the way the host decided. -/
def complete {α : Type} (outcome : Except JsError α) : Js α :=
  match outcome with
  | .ok a => pure a
  | .error e => throw e

/-- The call `setTimeout(callback, delay)`; ids are positive. -/
def setTimeout (callback : TimerCallback) (delay : Nat) : Js Nat := do
  let w ← get
  let id := w.timerCount + 1
  set { w with
    timerCount := id
    timers := w.timers ++
      [Timer.mk id false delay (w.now + delay) callback] }
  return id

/-- The call `setInterval(callback, delay)`; ids are positive. -/
def setInterval (callback : TimerCallback) (delay : Nat) : Js Nat := do
  let w ← get
  let id := w.timerCount + 1
  set { w with
    timerCount := id
    timers := w.timers ++
      [Timer.mk id true delay (w.now + delay) callback] }
  return id

/-- The call `clearInterval(handle)`; `undefined` and unknown ids cancel
nothing. -/
def clearInterval (handle : Option Nat) : Js Unit :=
  modify fun w => { w with timers := w.timers.filter fun t => some t.id != handle }

/-- The call `document.createElement('div')`: a fresh, detached element. -/
def createElement : Js AlertNode := do
  let w ← get
  let id := w.nodeCount + 1
  set { w with nodeCount := id }
  return { id := id, className := "", style := [], icon := .undefined, message := "" }

/-- The call `document.body.appendChild(node)`. -/
def appendChild (node : AlertNode) : Js Unit :=
  modify fun w => { w with body := w.body ++ [node] }

/-- The call `fetch(url)`: the request is issued, then the promise settles. -/
def fetch (url : String) (outcome : Except JsError Unit) : Js Unit := do
  modify fun w => { w with requests := w.requests ++ [url] }
  complete outcome

/-- A `console` call. -/
def consoleWrite (level text : String) : Js Unit :=
  modify fun w => { w with console := w.console ++ [(level, text)] }

/-- An operation on the loading modal; it is recorded when it returns
normally. -/
def modalCall (op : ModalOp) (outcome : Except JsError Unit) : Js Unit := do
  complete outcome
  modify fun w => { w with modalOps := w.modalOps ++ [op] }

/-- The read `xs.length`; a `TypeError` when `xs` is `undefined`. -/
def jsLength {α : Type} (xs : Option (List α)) : Js Nat :=
  match xs with
  | some l => pure l.length
  | none => throw ⟨"Cannot read properties of undefined (reading length)"⟩

/-- The call `xs.slice(start, stop)` for in-range indices; a `TypeError` when
`xs` is `undefined`. -/
def jsSlice {α : Type} (xs : Option (List α)) (start stop : Nat) : Js (List α) :=
  match xs with
  | some l => pure ((l.drop start).take (stop - start))
  | none => throw ⟨"Cannot read properties of undefined (reading slice)"⟩

/-- Number of binary digits of `n`, counted in at most `fuel` halvings. -/
def bitLength : Nat → Nat → Nat
  | 0, _ => 0
  | fuel + 1, n => if n = 0 then 0 else bitLength fuel (n / 2) + 1

/-- Number of decimal digits of `n`, counted in at most `fuel` divisions. -/
def decimalLength : Nat → Nat → Nat
  | 0, _ => 0
  | fuel + 1, n => if n = 0 then 0 else decimalLength fuel (n / 10) + 1

/-- The number `n` without its trailing decimal zeros. -/
def stripZeros : Nat → Nat → Nat
  | 0, n => n
  | fuel + 1, n => if n ≠ 0 ∧ n % 10 = 0 then stripZeros fuel (n / 10) else n

/-- The double nearest to the integer `a`, for `2^53 ≤ a` below the overflow
threshold: 53 significant bits, ties to the even significand. -/
def roundToDouble (a : Nat) : Nat :=
  let e := bitLength 1100 a - 53
  let q := a / 2 ^ e
  let r := a % 2 ^ e
  let half := 2 ^ (e - 1)
  let q := if half < r ∨ (r = half ∧ q % 2 = 1) then q + 1 else q
  q * 2 ^ e

/-- Whether the decimal `v` reads back as the double `x` (`2^53 ≤ x`): it lies
within half a step of `x`, the ends included when the significand is even. -/
def readsBackAs (x v : Nat) : Bool :=
  let e := bitLength 1100 x - 53
  let m := x / 2 ^ e
  let up := 2 ^ (e + 1)
  let down := if m = 2 ^ 52 then 2 ^ e else 2 ^ (e + 1)
  if m % 2 = 0 then decide (4 * x - down ≤ 4 * v ∧ 4 * v ≤ 4 * x + up)
  else decide (4 * x - down < 4 * v ∧ 4 * v < 4 * x + up)

/-- The decimal with the fewest significant digits that reads back as the
double `x`, the closest one to `x` among those; tried for `k` significant
digits, then `k + 1`, for at most `fuel` lengths. -/
def shortestDecimal (x : Nat) : Nat → Nat → Nat
  | 0, _ => x
  | fuel + 1, k =>
    let p := decimalLength 400 x - k
    let s := x / 10 ^ p
    let v1 := s * 10 ^ p
    let v2 := v1 + 10 ^ p
    if readsBackAs x v1 && readsBackAs x v2 then
      if x - v1 < v2 - x then v1
      else if v2 - x < x - v1 then v2
      else if s % 2 = 0 then v1 else v2
    else if readsBackAs x v1 then v1
    else if readsBackAs x v2 then v2
    else shortestDecimal x fuel (k + 1)

/-- The text of the positive decimal `v` in `Number::toString`: plain digits
up to 21 of them, exponent form beyond. -/
def decimalText (v : Nat) : String :=
  let n := decimalLength 400 v
  if n ≤ 21 then toString v
  else
    let digits := (toString (stripZeros 400 v)).toList
    match digits with
    | [] => ""
    | [d] => String.mk [d] ++ "e+" ++ toString (n - 1)
    | d :: rest => String.mk (d :: '.' :: rest) ++ "e+" ++ toString (n - 1)

/-- The text JavaScript shows for the number an integer is read as
(`Number::toString` of the nearest double).  Integers of magnitude below 2^53
are held exactly and shown in plain decimal; larger ones are rounded to 53
significant bits and shown with the fewest digits that read back as the same
number; from `2^1024 - 2^970` on the number is `Infinity`. -/
def jsNumberToString (n : Int) : String :=
  let a := n.natAbs
  if a < 2 ^ 53 then toString n
  else
    let sign := if n < 0 then "-" else ""
    if 2 ^ 1024 - 2 ^ 970 ≤ a then sign ++ "Infinity"
    else sign ++ decimalText (shortestDecimal (roundToDouble a) 17 1)

/-- Characters of a message that the HTML parser passes on as text unchanged:
all but the tag opener, the character reference opener, carriage return and
NUL. -/
def plainChar (c : Char) : Bool :=
  c != '<' && c != '&' && c != Char.ofNat 13 && c != Char.ofNat 0

/-- Tags of elements that only wrap their text, written without attributes. -/
def wrappingTags : List (List Char) :=
  ["b", "/b", "i", "/i", "em", "/em", "strong", "/strong", "u", "/u", "span", "/span"].map
    String.toList

/-- The text the HTML parser makes of markup, read character by character;
the first argument holds the characters of the tag being read, last first.
Only plain characters and wrapping tags are read; other markup gives `none`. -/
def htmlTextFrom : Option (List Char) → List Char → Option (List Char)
  | none, [] => some []
  | some _, [] => none
  | none, c :: cs =>
    if c = '<' then htmlTextFrom (some []) cs
    else if plainChar c then (htmlTextFrom none cs).map fun text => c :: text
    else none
  | some tag, c :: cs =>
    if c = '>' then
      if tag.reverse ∈ wrappingTags then htmlTextFrom none cs else none
    else htmlTextFrom (some (c :: tag)) cs

/-- The text the HTML parser makes of a message interpolated into `innerHTML`,
for messages made of plain characters and wrapping tags; `none` for other
markup. -/
def htmlText (markup : String) : Option String :=
  (htmlTextFrom none markup.toList).map String.mk

/-- String conversion in `'...' + value`; `undefined` prints as its name. -/
def jsString (value : Option String) : String :=
  value.getD "undefined"

/-- JavaScript truthiness of the timer handle global. -/
def handleTruthy : Option Nat → Bool
  | none => false
  | some h => h != 0

/-! ## The script -/

/-- What the host decides during one `refreshStats` call. -/
structure StatsHost where
  /-- Whether `fetch('/api/stats')` resolves or rejects. -/
  fetch : Except JsError Unit
  /-- What `response.json()` resolves to, or the error it rejects with. -/
  json : Except JsError StatsData
deriving Repr

/-- What the host decides during one `runMonitoring` call. -/
structure MonitoringHost where
  /-- Whether `new bootstrap.Modal(document.getElementById('loadingModal'))`
  returns or throws. -/
  modalNew : Except JsError Unit
  /-- Whether `modal.show()` returns or throws. -/
  modalShow : Except JsError Unit
  /-- Whether `fetch('/api/run-monitoring')` resolves or rejects. -/
  fetch : Except JsError Unit
  /-- What `response.json()` resolves to, or the error it rejects with. -/
  json : Except JsError MonitoringResult
  /-- Whether `modal.hide()` in the `try` block returns or throws. -/
  modalHide : Except JsError Unit
  /-- Whether `modal.hide()` in the `catch` block returns or throws. -/
  modalHideInCatch : Except JsError Unit
deriving Repr

/-- The function `showAlert(type, message, duration = 5000)`; `duration` is
`none` when the caller passes two arguments.  The two record updates of
`icon` and `message` are the assignment to `innerHTML`. -/
def showAlert (type message : String) (duration : Option Nat) : Js Unit := do
  let alertDiv ← createElement
  let alertDiv := { alertDiv with
    className := "alert alert-" ++ type ++ " alert-dismissible fade show position-fixed" }
  let alertDiv := { alertDiv with
    style := [("top", "20px"), ("right", "20px"), ("zIndex", "9999"), ("minWidth", "300px")] }
  let alertDiv := { alertDiv with icon := getAlertIcon type, message := message }
  appendChild alertDiv
  let _ ← setTimeout (.removeAlert alertDiv.id) (duration.getD 5000)

/-- The text an overlay element shows (`textContent`): the line breaks and
indentation of the template, whose `<i>` and `<button>` elements hold no
text, around the text of the message. -/
def AlertNode.textContent (node : AlertNode) : Option String :=
  (htmlText node.message).map fun text =>
    "\n        \n        " ++ text ++ "\n        \n    "

/-- The timer callback of `showAlert` for the element `node`:
`if (alertDiv.parentNode) { alertDiv.remove(); }`. -/
def alertTimeout (node : Nat) : Js Unit := do
  if (← get).body.any (fun n => n.id == node) then
    modify fun w => { w with body := w.body.filter fun n => n.id != node }

/-- The user clicks the close button of the overlay element `node`, which
takes the element out of the document. -/
def dismissAlert (node : Nat) : Js Unit :=
  modify fun w => { w with body := w.body.filter fun n => n.id != node }

/-- The function `updateStatsCards(data)`.  Assigning a number to
`textContent` stores the text of the number; an array length is below 2^32
and shown in plain decimal. -/
def updateStatsCards (data : StatsData) : Js Unit := do
  let totalMentions := (← get).cardPrimary
  if totalMentions.isSome then
    modify fun w => { w with cardPrimary := some (jsNumberToString data.total_mentions) }
  let recentMentions := (← get).cardSuccess
  if recentMentions.isSome then
    modify fun w => { w with cardSuccess := some (jsNumberToString data.recent_mentions) }
  let activeCompanies := (← get).cardWarning
  if activeCompanies.isSome then
    let length ← jsLength data.company_mentions
    modify fun w => { w with cardWarning := some (toString length) }

/-- The function `updateCharts(data)`; `update()` redraws the chart. -/
def updateCharts (data : StatsData) : Js Unit := do
  if (← get).companyChart.isSome then
    let labels := (← jsSlice data.company_mentions 0 10).map fun item => item.company_name
    modify fun w => { w with
      companyChart := w.companyChart.map fun c => { c with labels := labels } }
    let values := (← jsSlice data.company_mentions 0 10).map fun item => item.count
    modify fun w => { w with
      companyChart := w.companyChart.map fun c => { c with data := values } }
    modify fun w => { w with
      companyChart := w.companyChart.map fun c => { c with updates := c.updates + 1 } }
  if (← get).sourceChart.isSome then
    let labels := (← jsSlice data.source_mentions 0 8).map fun item => item.source
    modify fun w => { w with
      sourceChart := w.sourceChart.map fun c => { c with labels := labels } }
    let values := (← jsSlice data.source_mentions 0 8).map fun item => item.count
    modify fun w => { w with
      sourceChart := w.sourceChart.map fun c => { c with data := values } }
    modify fun w => { w with
      sourceChart := w.sourceChart.map fun c => { c with updates := c.updates + 1 } }

/-- The function `refreshStats()`, run to completion. -/
def refreshStats (host : StatsHost) : Js Unit := do
  try
    fetch "/api/stats" host.fetch
    let data ← complete host.json
    updateStatsCards data
    updateCharts data
    consoleWrite "log" "Stats refreshed successfully"
  catch error =>
    consoleWrite "error" ("Error refreshing stats: " ++ error.message)

/-- The function `startAutoRefresh()`. -/
def startAutoRefresh : Js Unit := do
  let handle ← setInterval .refreshTick 30000
  modify fun w => { w with refreshInterval := some handle }

/-- The function `stopAutoRefresh()`. -/
def stopAutoRefresh : Js Unit := do
  let refreshInterval := (← get).refreshInterval
  if handleTruthy refreshInterval then
    clearInterval refreshInterval

/-- The function `runMonitoring()`, run to completion. -/
def runMonitoring (host : MonitoringHost) : Js Unit := do
  if (← get).isMonitoring then
    showAlert "warning" "Monitoring is already running..." none
    return
  modify fun w => { w with isMonitoring := true }
  modalCall .created host.modalNew
  modalCall .shown host.modalShow
  try
    fetch "/api/run-monitoring" host.fetch
    let data ← complete host.json
    modalCall .hidden host.modalHide
    if data.success then
      showAlert "success" "Monitoring completed successfully! Found new mentions." none
      let _ ← setTimeout .reloadPage 2000
    else
      showAlert "danger" ("Error: " ++ jsString data.message) none
  catch error =>
    modalCall .hidden host.modalHideInCatch
    showAlert "danger" ("Error running monitoring: " ++ error.message) none
  finally
    modify fun w => { w with isMonitoring := false }

/-- What a timer callback does when the host runs it. -/
def runCallback (stats : StatsHost) : TimerCallback → Js Unit
  | .refreshTick => refreshStats stats
  | .removeAlert node => alertTimeout node
  | .reloadPage => modify fun w => { w with reloads := w.reloads + 1 }

/-! ## The host event loop: timers -/

/-- The timer as the host keeps it after running its callback: an interval
timer is due again one period later (a period is at least 1 ms), a timeout is
dropped. -/
def reschedule (t : Timer) (rest : List Timer) : List Timer :=
  if t.repeating then { t with due := t.due + max t.delay 1 } :: rest else rest

/-- Picks the pending timer the host runs next, if one is due by `target`:
the earliest due, and on a tie the first registered.  Returns it with the
timer list as it is afterwards. -/
def popDue (target : Nat) : List Timer → Option (Timer × List Timer)
  | [] => none
  | t :: ts =>
    match popDue target ts with
    | none => if t.due ≤ target then some (t, reschedule t ts) else none
    | some (u, ts') =>
      if t.due ≤ u.due then some (t, reschedule t ts) else some (u, t :: ts')

/-- How often the host runs timer `t` up to clock value `target`. -/
def firings (target : Nat) (t : Timer) : Nat :=
  if t.due ≤ target then
    if t.repeating then (target - t.due) / max t.delay 1 + 1 else 1
  else 0

/-- How many callbacks the host runs up to clock value `target`. -/
def pending (target : Nat) (timers : List Timer) : Nat :=
  (timers.map (firings target)).sum

/-- The host runs one due callback; an error the callback throws is
reported by the host and goes no further.  `stats k` is what the host decides
for the stats request issued when `k` requests have been made. -/
def fireNext (stats : Nat → StatsHost) (target : Nat) (w : World) : World :=
  match popDue target w.timers with
  | none => w
  | some (t, ts) =>
    let w1 := { w with now := max w.now t.due, timers := ts }
    (exec (runCallback (stats w1.requests.length) t.callback) w1).2

/-- The host runs up to `fuel` due callbacks. -/
def pump (stats : Nat → StatsHost) (target : Nat) : Nat → World → World
  | 0, w => w
  | fuel + 1, w => pump stats target fuel (fireNext stats target w)

/-- The host lets `ms` milliseconds pass with no user input: every callback
that becomes due in that time runs, in due order. -/
def elapse (stats : Nat → StatsHost) (ms : Nat) (w : World) : World :=
  let target := w.now + ms
  { pump stats target (pending target w.timers) w with now := target }

/-! ## Abbreviations used in the statements -/

/-- The overlay element `showAlert(type, message)` builds in state `w`. -/
def alertNode (w : World) (type message : String) : AlertNode :=
  { id := w.nodeCount + 1
    className := "alert alert-" ++ type ++ " alert-dismissible fade show position-fixed"
    style := [("top", "20px"), ("right", "20px"), ("zIndex", "9999"), ("minWidth", "300px")]
    icon := getAlertIcon type
    message := message }

/-- The removal timer `showAlert` registers in state `w`. -/
def alertTimer (w : World) (duration : Option Nat) : Timer :=
  { id := w.timerCount + 1
    repeating := false
    delay := duration.getD 5000
    due := w.now + duration.getD 5000
    callback := .removeAlert (w.nodeCount + 1) }

/-- The state `showAlert` leaves behind. -/
def alerted (w : World) (type message : String) (duration : Option Nat) : World :=
  { w with
    body := w.body ++ [alertNode w type message]
    nodeCount := w.nodeCount + 1
    timers := w.timers ++ [alertTimer w duration]
    timerCount := w.timerCount + 1 }

/-- The interval timer `startAutoRefresh` registers in state `w`. -/
def refreshTimer (w : World) : Timer :=
  { id := w.timerCount + 1
    repeating := true
    delay := 30000
    due := w.now + 30000
    callback := .refreshTick }

/-- The count of distinct companies in a snapshot, as the specification
words it: the number of distinct `company_name` values among the entries of
`company_mentions`.  The script never computes it. -/
def distinctCompanies (s : StatsSnapshot) : Nat :=
  ((s.company_mentions.map fun item => item.company_name).dedup).length

/-- A host on which every step of `runMonitoring` succeeds and the endpoint
answers `result`. -/
def MonitoringHost.answering (result : MonitoringResult) : MonitoringHost :=
  { modalNew := .ok (), modalShow := .ok (), fetch := .ok (), json := .ok result,
    modalHide := .ok (), modalHideInCatch := .ok () }

/-- A host on which the stats endpoint answers `data`. -/
def StatsHost.answering (data : StatsData) : StatsHost :=
  { fetch := .ok (), json := .ok data }

/-- A dashboard page: the three cards and both charts exist, still empty. -/
def World.dashboard : World :=
  { World.initial with
    cardPrimary := some "", cardSuccess := some "", cardWarning := some ""
    companyChart := some { labels := [], data := [], updates := 0 }
    sourceChart := some { labels := [], data := [], updates := 0 } }

/-- The stats response of the worked example. -/
def acmeSnapshot : StatsSnapshot :=
  { total_mentions := 42, recent_mentions := 5
    company_mentions := [{ company_name := "Acme", count := 9 }]
    source_mentions := [] }

/-- A stats response in which one company has two entries. -/
def repeatedCompany : StatsSnapshot :=
  { total_mentions := 3, recent_mentions := 3
    company_mentions := [{ company_name := "Acme", count := 1 }, { company_name := "Acme", count := 2 }]
    source_mentions := [] }

/-- A stats response without the `company_mentions` property. -/
def truncatedData : StatsData :=
  { total_mentions := 42, recent_mentions := 5, company_mentions := none,
    source_mentions := some [] }

/-- A monitoring response whose message holds markup. -/
def markupFailure : MonitoringResult :=
  { success := false, message := some "<b>rate</b> limited" }

/-- A stats response with a count that is not shown in plain decimal. -/
def hugeSnapshot : StatsSnapshot :=
  { total_mentions := 10 ^ 21, recent_mentions := 5
    company_mentions := [{ company_name := "Acme", count := 9 }]
    source_mentions := [] }

/-- A stats endpoint that cannot be reached. -/
def StatsHost.unreachable : StatsHost :=
  { fetch := .error ⟨"Failed to fetch"⟩, json := .error ⟨"Failed to fetch"⟩ }

/-- A page without the `loadingModal` element: constructing the modal throws. -/
def MonitoringHost.noModal : MonitoringHost :=
  { MonitoringHost.answering { success := true, message := none } with
    modalNew := .error ⟨"Cannot read properties of null"⟩ }

/-- What `refreshStats` leaves alone. -/
def sameShell (w w' : World) : Prop :=
  w'.refreshInterval = w.refreshInterval ∧ w'.isMonitoring = w.isMonitoring ∧
  w'.now = w.now ∧ w'.timers = w.timers ∧ w'.timerCount = w.timerCount ∧
  w'.body = w.body ∧ w'.nodeCount = w.nodeCount ∧ w'.modalOps = w.modalOps ∧
  w'.reloads = w.reloads

/-- Element `n` is on its way out of the document: its removal timer is
pending and due by `target`, or the element is already gone. -/
def Leaving (n target : Nat) (w : World) : Prop :=
  (∃ t ∈ w.timers, t.due ≤ target ∧ t.callback = .removeAlert n) ∨ ∀ x ∈ w.body, x.id ≠ n

/-! ## Lemmas -/

/-- The function `showAlert` returns normally, with one element and one timer
added. -/
theorem exec_showAlert (type message : String) (duration : Option Nat) (w : World) :
    exec (showAlert type message duration) w = (.ok (), alerted w type message duration) :=
  rfl

/-- The removal callback returns normally; it filters the body when the
element is attached and changes nothing otherwise. -/
theorem exec_alertTimeout (n : Nat) (w : World) :
    exec (alertTimeout n) w =
      (.ok (), if w.body.any (fun x => x.id == n) then
        { w with body := w.body.filter fun x => x.id != n } else w) := by
  show StateT.run (ExceptT.run (if (w.body.any fun x => x.id == n) = true then
    (modify fun w => { w with body := w.body.filter fun x => x.id != n } : Js Unit)
    else pure ())) w = _
  split <;> rfl

/-- Either way, the body after the removal callback is the body without the
element. -/
theorem exec_alertTimeout_body (n : Nat) (w : World) :
    (exec (alertTimeout n) w).2.body = w.body.filter fun x => x.id != n := by
  rw [exec_alertTimeout]
  split
  · rfl
  · rename_i h
    symm
    simp only [List.filter_eq_self, bne_iff_ne, ne_eq]
    intro x hx hid
    apply h
    simp only [List.any_eq_true, beq_iff_eq]
    exact ⟨x, hx, hid⟩

/-- Whatever the stats request does, `refreshStats` returns normally and
touches neither the globals, the timers, the overlays nor the modal. -/
theorem refreshStats_shell (host : StatsHost) (w : World) :
    (exec (refreshStats host) w).1 = .ok () ∧ sameShell w (exec (refreshStats host) w).2 := by
  obtain ⟨f, j⟩ := host
  obtain ⟨a1, a2, a3, a4, a5, a6, a7, c1, c2, c3, h1, h2, a8, a9, a10, a11⟩ := w
  rcases f with e | _
  · exact ⟨rfl, rfl, rfl, rfl, rfl, rfl, rfl, rfl, rfl, rfl⟩
  · rcases j with e | ⟨t, r, cm, sm⟩
    · exact ⟨rfl, rfl, rfl, rfl, rfl, rfl, rfl, rfl, rfl, rfl⟩
    · cases c1 <;> cases c2 <;> cases c3 <;> cases h1 <;> cases h2 <;> cases cm <;> cases sm <;>
        exact ⟨rfl, rfl, rfl, rfl, rfl, rfl, rfl, rfl, rfl, rfl⟩

/-- Running an interval timer once leaves one firing fewer up to `target`. -/
theorem firings_reschedule (target : Nat) (t : Timer) (h : t.due ≤ target) (hr : t.repeating = true) :
    firings target { t with due := t.due + max t.delay 1 } + 1 = firings target t := by
  have hp : 0 < max t.delay 1 := by omega
  simp only [firings, h, hr, if_true]
  by_cases h2 : t.due + max t.delay 1 ≤ target
  · simp only [h2, if_true]
    have : max t.delay 1 ≤ target - t.due := by omega
    rw [Nat.div_eq_sub_div hp this, Nat.sub_add_eq]
  · simp only [h2, if_false]
    have : target - t.due < max t.delay 1 := by omega
    rw [Nat.div_eq_of_lt this]

/-- Running the head timer once leaves one pending callback fewer. -/
theorem pending_reschedule (target : Nat) (t : Timer) (ts : List Timer) (h : t.due ≤ target) :
    pending target (reschedule t ts) + 1 = pending target (t :: ts) := by
  cases hr : t.repeating
  · simp [reschedule, pending, hr, firings, h]; omega
  · have := firings_reschedule target t h hr
    rw [reschedule, if_pos hr]
    simp only [pending, List.map_cons, List.sum_cons]
    omega

/-- Rescheduling keeps the other timers. -/
theorem mem_reschedule (t x : Timer) (ts : List Timer) (h : x ∈ ts) : x ∈ reschedule t ts := by
  unfold reschedule
  split
  · exact List.mem_cons_of_mem _ h
  · exact h

/-- When the host finds nothing to run, no pending timer is due by `target`. -/
theorem popDue_none (target : Nat) (ts : List Timer) (h : popDue target ts = none) :
    ∀ t ∈ ts, target < t.due := by
  induction ts with
  | nil => intro t ht; cases ht
  | cons a ts ih =>
    simp only [popDue] at h
    cases hp : popDue target ts with
    | none =>
      rw [hp] at h
      simp only at h
      have ha : ¬ a.due ≤ target := by
        intro hle
        simp [hle] at h
      intro t ht
      rcases List.mem_cons.mp ht with rfl | ht
      · omega
      · exact ih hp t ht
    | some p =>
      obtain ⟨u, ts'⟩ := p
      rw [hp] at h
      simp only at h
      split at h <;> cases h

/-- The timer the host picks is pending and due; afterwards one callback
fewer is pending, and every other timer is still registered. -/
theorem popDue_some (target : Nat) (ts : List Timer) (u : Timer) (ts' : List Timer)
    (h : popDue target ts = some (u, ts')) :
    u ∈ ts ∧ u.due ≤ target ∧ pending target ts' + 1 = pending target ts ∧
      ∀ t ∈ ts, t ≠ u → t ∈ ts' := by
  induction ts generalizing u ts' with
  | nil => cases h
  | cons a ts ih =>
    simp only [popDue] at h
    cases hp : popDue target ts with
    | none =>
      rw [hp] at h
      simp only at h
      split at h
      · rename_i hle
        cases h
        refine ⟨List.mem_cons_self _ _, hle, pending_reschedule target _ ts hle, ?_⟩
        intro t ht hne
        rcases List.mem_cons.mp ht with rfl | ht
        · exact absurd rfl hne
        · exact mem_reschedule _ _ _ ht
      · cases h
    | some p =>
      obtain ⟨v, vs⟩ := p
      rw [hp] at h
      simp only at h
      obtain ⟨hv1, hv2, hv3, hv4⟩ := ih v vs hp
      split at h
      · rename_i hle
        cases h
        have hle' : a.due ≤ target := le_trans hle hv2
        refine ⟨List.mem_cons_self _ _, hle', pending_reschedule target _ ts hle', ?_⟩
        intro t ht hne
        rcases List.mem_cons.mp ht with rfl | ht
        · exact absurd rfl hne
        · exact mem_reschedule _ _ _ ht
      · cases h
        refine ⟨List.mem_cons_of_mem _ hv1, hv2, ?_, ?_⟩
        · simp only [pending, List.map_cons, List.sum_cons] at hv3 ⊢
          omega
        · intro t ht hne
          rcases List.mem_cons.mp ht with rfl | ht
          · exact List.mem_cons_self _ _
          · exact List.mem_cons_of_mem _ (hv4 t ht hne)

/-- When the host finds nothing to run, no callback is pending. -/
theorem pending_eq_zero (target : Nat) (ts : List Timer) (h : popDue target ts = none) :
    pending target ts = 0 := by
  have := popDue_none target ts h
  unfold pending
  apply List.sum_eq_zero
  intro x hx
  obtain ⟨t, ht, rfl⟩ := List.mem_map.mp hx
  have := this t ht
  simp [firings]
  omega


/-- No callback of the script registers or cancels a timer. -/
theorem runCallback_timers (host : StatsHost) (cb : TimerCallback) (w : World) :
    (exec (runCallback host cb) w).2.timers = w.timers := by
  cases cb with
  | refreshTick => exact (refreshStats_shell host w).2.2.2.2.1
  | removeAlert n =>
    show (exec (alertTimeout n) w).2.timers = w.timers
    rw [exec_alertTimeout]
    split <;> rfl
  | reloadPage => rfl

/-- No callback of the script adds an overlay element. -/
theorem runCallback_body (host : StatsHost) (cb : TimerCallback) (w : World) :
    ∀ x ∈ (exec (runCallback host cb) w).2.body, x ∈ w.body := by
  cases cb with
  | refreshTick =>
    have h : (exec (refreshStats host) w).2.body = w.body := (refreshStats_shell host w).2.2.2.2.2.2.1
    intro x hx
    exact h ▸ hx
  | removeAlert n =>
    intro x hx
    have h : (exec (alertTimeout n) w).2.body = _ := exec_alertTimeout_body n w
    exact List.mem_of_mem_filter (h ▸ hx)
  | reloadPage => exact fun x hx => hx

/-- After one host step the pending timers are those `popDue` returned. -/
theorem fireNext_timers (stats : Nat → StatsHost) (target : Nat) (w : World) (u : Timer)
    (ts : List Timer) (h : popDue target w.timers = some (u, ts)) :
    (fireNext stats target w).timers = ts := by
  simp only [fireNext, h]
  exact runCallback_timers _ _ _

/-- One host step keeps an element on its way out. -/
theorem fireNext_leaving (stats : Nat → StatsHost) (n target : Nat) (w : World)
    (h : Leaving n target w) : Leaving n target (fireNext stats target w) := by
  unfold fireNext
  cases hp : popDue target w.timers with
  | none => exact h
  | some p =>
    obtain ⟨u, ts⟩ := p
    simp only
    obtain ⟨hu1, hu2, hu3, hu4⟩ := popDue_some target w.timers u ts hp
    by_cases hcb : u.callback = .removeAlert n
    · right
      rw [hcb]
      intro x hx
      have hb := exec_alertTimeout_body n { w with now := max w.now u.due, timers := ts }
      have hx' : x ∈ List.filter (fun x => x.id != n) w.body := hb ▸ hx
      simpa using (List.mem_filter.mp hx').2
    · rcases h with ⟨t, ht, hdue, hcall⟩ | hgone
      · left
        refine ⟨t, ?_, hdue, hcall⟩
        rw [runCallback_timers]
        exact hu4 t ht (fun heq => hcb (heq ▸ hcall))
      · right
        intro x hx
        exact hgone x (runCallback_body _ _ { w with now := max w.now u.due, timers := ts } x hx)

/-- Any number of host steps keeps an element on its way out. -/
theorem pump_leaving (stats : Nat → StatsHost) (n target fuel : Nat) (w : World)
    (h : Leaving n target w) : Leaving n target (pump stats target fuel w) := by
  induction fuel generalizing w with
  | zero => exact h
  | succ k ih => exact ih _ (fireNext_leaving stats n target w h)

/-- With one step per pending callback, the host runs every callback due by
`target`. -/
theorem pump_drains (stats : Nat → StatsHost) (target fuel : Nat) (w : World)
    (h : pending target w.timers = fuel) :
    popDue target (pump stats target fuel w).timers = none := by
  induction fuel generalizing w with
  | zero =>
    show popDue target w.timers = none
    cases hp : popDue target w.timers with
    | none => rfl
    | some p =>
      have := (popDue_some target w.timers p.1 p.2 hp).2.2.1
      omega
  | succ k ih =>
    show popDue target (pump stats target k (fireNext stats target w)).timers = none
    apply ih
    cases hp : popDue target w.timers with
    | none =>
      have := pending_eq_zero target w.timers hp
      omega
    | some p =>
      have := (popDue_some target w.timers p.1 p.2 hp).2.2.1
      rw [fireNext_timers stats target w p.1 p.2 hp]
      omega

/-- An element whose removal timer is due within `ms` milliseconds is out of
the document once they have passed. -/
theorem elapse_removes (stats : Nat → StatsHost) (n ms : Nat) (w : World)
    (h : ∃ t ∈ w.timers, t.due ≤ w.now + ms ∧ t.callback = .removeAlert n) :
    ∀ x ∈ (elapse stats ms w).body, x.id ≠ n := by
  have h1 := pump_leaving stats n (w.now + ms) (pending (w.now + ms) w.timers) w (Or.inl h)
  have h2 := pump_drains stats (w.now + ms) (pending (w.now + ms) w.timers) w rfl
  rcases h1 with ⟨t, ht, hdue, -⟩ | hgone
  · have := popDue_none _ _ h2 t ht
    omega
  · exact hgone

/-! ## The notification icon -/

/-- C5. `getAlertIcon` does not fall back to the default glyph for a kind that
names a property inherited from `Object.prototype`: for `'constructor'` and
`'toString'` the read `icons[type]` finds the inherited function, which is
truthy, and that function is returned instead of `'info-circle'`. -/
theorem getAlertIcon_inherited_kind :
    getAlertIcon "constructor" = .builtin "constructor" ∧
    getAlertIcon "toString" = .builtin "toString" ∧
    getAlertIcon "constructor" ≠ .string "info-circle" ∧
    getAlertIcon "toString" ≠ .string "info-circle" := by
  decide

/-- The five recognised kinds map to their glyphs. -/
theorem getAlertIcon_known :
    getAlertIcon "success" = .string "check-circle" ∧
    getAlertIcon "danger" = .string "exclamation-triangle" ∧
    getAlertIcon "warning" = .string "exclamation-circle" ∧
    getAlertIcon "info" = .string "info-circle" ∧
    getAlertIcon "primary" = .string "info-circle" := by
  decide

/-- A kind that is neither one of the five nor an inherited property name
gets the default glyph. -/
theorem getAlertIcon_default (type : String)
    (hown : type ∉ ["success", "danger", "warning", "info", "primary"])
    (hproto : type ∉ objectPrototypeProps) :
    getAlertIcon type = .string "info-circle" := by
  have h1 : icons.lookup type = none := by
    simp only [List.mem_cons, List.mem_singleton, not_or, List.not_mem_nil, or_false] at hown
    obtain ⟨a, b, c, d, e⟩ := hown
    simp [icons, List.lookup, beq_eq_false_iff_ne.mpr a, beq_eq_false_iff_ne.mpr b,
      beq_eq_false_iff_ne.mpr c, beq_eq_false_iff_ne.mpr d, beq_eq_false_iff_ne.mpr e]
  simp [getAlertIcon, getProp, h1, hproto, JsValue.truthy]

/-- The empty kind and `'error'` get the default glyph. -/
theorem getAlertIcon_default_examples :
    getAlertIcon "" = .string "info-circle" ∧ getAlertIcon "error" = .string "info-circle" := by
  decide

/-! ## The monitoring action -/

/-- Once the modal is constructed and shown, every later outcome releases
the flag. -/
theorem runMonitoring_releases (host : MonitoringHost) (w : World)
    (hidle : w.isMonitoring = false) (hnew : host.modalNew = .ok ())
    (hshow : host.modalShow = .ok ()) :
    (exec (runMonitoring host) w).2.isMonitoring = false := by
  cases w
  obtain ⟨a, b, c, d, e, f⟩ := host
  simp only at hidle hnew hshow
  subst hidle hnew hshow
  rcases c with _ | _ <;> rcases d with _ | ⟨s, m⟩ <;> rcases e with _ | _ <;>
    rcases f with _ | _ <;> first | rfl | (cases s <;> rfl)

/-- When constructing the modal throws, the error leaves `runMonitoring`
with the flag still set. -/
theorem runMonitoring_stuck_new (host : MonitoringHost) (w : World) (e : JsError)
    (hidle : w.isMonitoring = false) (hnew : host.modalNew = .error e) :
    exec (runMonitoring host) w = (.error e, { w with isMonitoring := true }) := by
  cases w
  cases host
  simp only at hidle hnew
  subst hidle hnew
  rfl

/-- When showing the modal throws, the error leaves `runMonitoring` with the
flag still set. -/
theorem runMonitoring_stuck_show (host : MonitoringHost) (w : World) (e : JsError)
    (hidle : w.isMonitoring = false) (hnew : host.modalNew = .ok ())
    (hshow : host.modalShow = .error e) :
    exec (runMonitoring host) w =
      (.error e, { w with isMonitoring := true, modalOps := w.modalOps ++ [.created] }) := by
  cases w
  cases host
  simp only at hidle hnew hshow
  subst hidle hnew hshow
  rfl

/-- C1. On a page where constructing the loading modal throws, an invocation
of `runMonitoring` that starts with `isMonitoring = false` ends by throwing
with `isMonitoring = true`: the flag is set before the `try` block, and the
`finally` that resets it does not cover the modal construction.  A later
invocation on a page that works is then refused without a request. -/
theorem runMonitoring_flag_stuck :
    World.initial.isMonitoring = false ∧
    exec (runMonitoring MonitoringHost.noModal) World.initial =
      (.error ⟨"Cannot read properties of null"⟩, { World.initial with isMonitoring := true }) ∧
    (exec (runMonitoring MonitoringHost.noModal) World.initial).2.isMonitoring = true ∧
    (exec (runMonitoring (MonitoringHost.answering { success := true, message := none }))
      (exec (runMonitoring MonitoringHost.noModal) World.initial).2).2.requests = [] :=
  ⟨rfl, rfl, rfl, rfl⟩

/-- C2. While `isMonitoring` is true, `runMonitoring` only shows the warning
notification: no request, no modal operation, no reload and no reload timer,
and the flag stays true. -/
theorem runMonitoring_while_running (host : MonitoringHost) (w : World)
    (h : w.isMonitoring = true) :
    exec (runMonitoring host) w =
      (.ok (), alerted w "warning" "Monitoring is already running..." none) ∧
    (exec (runMonitoring host) w).2.requests = w.requests ∧
    (exec (runMonitoring host) w).2.body =
      w.body ++ [alertNode w "warning" "Monitoring is already running..."] ∧
    (alertNode w "warning" "Monitoring is already running...").className =
      "alert alert-warning alert-dismissible fade show position-fixed" ∧
    (alertNode w "warning" "Monitoring is already running...").message =
      "Monitoring is already running..." ∧
    (exec (runMonitoring host) w).2.modalOps = w.modalOps ∧
    (exec (runMonitoring host) w).2.reloads = w.reloads ∧
    (exec (runMonitoring host) w).2.timers = w.timers ++ [alertTimer w none] ∧
    (alertTimer w none).callback ≠ .reloadPage ∧
    (exec (runMonitoring host) w).2.isMonitoring = true := by
  have key : exec (runMonitoring host) w =
      (.ok (), alerted w "warning" "Monitoring is already running..." none) := by
    cases w
    simp only at h
    subst h
    rfl
  rw [key]
  refine ⟨rfl, rfl, rfl, ?_, rfl, rfl, rfl, rfl, ?_, h⟩
  · rfl
  · simp [alertTimer]

/-- An instance of C2: a second invocation on a page whose first invocation
is still in flight. -/
theorem runMonitoring_while_running_witness :
    ({ World.initial with isMonitoring := true } : World).isMonitoring = true ∧
    (exec (runMonitoring (MonitoringHost.answering ⟨true, none⟩))
        { World.initial with isMonitoring := true }).2.requests = [] :=
  ⟨rfl, (runMonitoring_while_running (MonitoringHost.answering ⟨true, none⟩)
    { World.initial with isMonitoring := true } rfl).2.1⟩

/-- Markup made of plain characters is shown as it is written. -/
theorem htmlTextFrom_plain (l : List Char) (h : ∀ c ∈ l, plainChar c = true) :
    htmlTextFrom none l = some l := by
  induction l with
  | nil => rfl
  | cons c cs ih =>
    have hc : plainChar c = true := h c (List.mem_cons_self _ _)
    have hlt : c ≠ '<' := by
      intro heq
      subst heq
      exact absurd hc (by decide)
    have hcs := ih fun d hd => h d (List.mem_cons_of_mem _ hd)
    simp only [htmlTextFrom, hlt, if_false, hc, if_true, hcs, Option.map_some']

/-- The text of the failure notification for a message of plain characters
is the notification string itself. -/
theorem htmlText_error_plain (m : String) (h : ∀ c ∈ m.toList, plainChar c = true) :
    htmlText ("Error: " ++ m) = some ("Error: " ++ m) := by
  have hall : ∀ c ∈ ("Error: " ++ m).toList, plainChar c = true := by
    intro c hc
    rw [String.toList, String.data_append, List.mem_append] at hc
    rcases hc with hc | hc
    · revert c
      decide
    · exact h c hc
  simp only [htmlText, htmlTextFrom_plain _ hall, Option.map_some']
  rfl

/-- C7 (as stated). When the endpoint answers with `success = false` and the
message `<b>rate</b> limited`, the one notification shows the text
`Error: rate limited`, in which the message does not occur: the script hands
the message to `innerHTML`, so its tags are parsed, not shown. -/
theorem runMonitoring_failure_text_drops_markup :
    (exec (runMonitoring (MonitoringHost.answering markupFailure)) World.initial).2.body =
      [alertNode World.initial "danger" "Error: <b>rate</b> limited"] ∧
    (alertNode World.initial "danger" "Error: <b>rate</b> limited").textContent =
      some "\n        \n        Error: rate limited\n        \n    " ∧
    ¬ ∃ before after : String,
      "\n        \n        Error: rate limited\n        \n    " =
        before ++ "<b>rate</b> limited" ++ after := by
  refine ⟨rfl, by decide, ?_⟩
  rintro ⟨before, after, h⟩
  have hinfix : "<b>rate</b> limited".toList <:+:
      "\n        \n        Error: rate limited\n        \n    ".toList :=
    ⟨before.toList, after.toList, by rw [h]; simp [String.toList, String.data_append]⟩
  revert hinfix
  decide

/-- C7 (amended). When the modal opens and closes normally and the endpoint
answers with `success = false` and message `m`, an invocation started with
`isMonitoring = false` returns normally, hides the modal, appends exactly one
overlay element, of kind danger, into whose markup `'Error: ' + m` is
interpolated as it is; when `m` is made of plain characters the text shown
contains `m`.  Only the removal timer of that element is registered (no
reload timer), nothing is reloaded, and the flag ends released. -/
theorem runMonitoring_reports_failure (host : MonitoringHost) (w : World) (m : String)
    (hidle : w.isMonitoring = false) (hnew : host.modalNew = .ok ())
    (hshow : host.modalShow = .ok ()) (hfetch : host.fetch = .ok ())
    (hjson : host.json = .ok { success := false, message := some m })
    (hhide : host.modalHide = .ok ()) :
    (exec (runMonitoring host) w).1 = .ok () ∧
    (exec (runMonitoring host) w).2.modalOps = w.modalOps ++ [.created, .shown, .hidden] ∧
    (exec (runMonitoring host) w).2.body = w.body ++ [alertNode w "danger" ("Error: " ++ m)] ∧
    (alertNode w "danger" ("Error: " ++ m)).className =
      "alert alert-danger alert-dismissible fade show position-fixed" ∧
    (alertNode w "danger" ("Error: " ++ m)).message = "Error: " ++ m ∧
    ((∀ c ∈ m.toList, plainChar c = true) →
      ∃ before after : String,
        (alertNode w "danger" ("Error: " ++ m)).textContent = some (before ++ m ++ after)) ∧
    (exec (runMonitoring host) w).2.timers = w.timers ++ [alertTimer w none] ∧
    (alertTimer w none).callback = .removeAlert (alertNode w "danger" ("Error: " ++ m)).id ∧
    (exec (runMonitoring host) w).2.reloads = w.reloads ∧
    (exec (runMonitoring host) w).2.requests = w.requests ++ ["/api/run-monitoring"] ∧
    (exec (runMonitoring host) w).2.isMonitoring = false := by
  have key : exec (runMonitoring host) w =
      (.ok (), alerted { w with
          isMonitoring := false
          requests := w.requests ++ ["/api/run-monitoring"]
          modalOps := w.modalOps ++ [.created] ++ [.shown] ++ [.hidden] }
        "danger" ("Error: " ++ m) none) := by
    cases w
    cases host
    simp only at hidle hnew hshow hfetch hjson hhide
    subst hidle hnew hshow hfetch hjson hhide
    rfl
  rw [key]
  refine ⟨rfl, ?_, rfl, rfl, rfl, ?_, rfl, rfl, rfl, rfl, rfl⟩
  · simp [alerted]
  · intro hplain
    refine ⟨"\n        \n        Error: ", "\n        \n    ", ?_⟩
    show (htmlText ("Error: " ++ m)).map _ = _
    rw [htmlText_error_plain m hplain]
    have hlit : "\n        \n        " ++ "Error: " = "\n        \n        Error: " := by
      decide
    simp only [Option.map_some', String.append_assoc]
    rw [← String.append_assoc, hlit]

/-- The worked example of C7: the endpoint answers
`{success: false, message: "rate limited"}` on a freshly loaded page. -/
theorem runMonitoring_reports_failure_witness :
    World.initial.isMonitoring = false ∧
    (MonitoringHost.answering { success := false, message := some "rate limited" }).json =
      .ok { success := false, message := some "rate limited" } ∧
    (∀ c ∈ "rate limited".toList, plainChar c = true) ∧
    (exec (runMonitoring (MonitoringHost.answering { success := false, message := some "rate limited" }))
      World.initial).2.body = [] ++ [alertNode World.initial "danger" ("Error: " ++ "rate limited")] ∧
    (∃ before after : String,
      (alertNode World.initial "danger" ("Error: " ++ "rate limited")).textContent =
        some (before ++ "rate limited" ++ after)) ∧
    (exec (runMonitoring (MonitoringHost.answering { success := false, message := some "rate limited" }))
      World.initial).2.reloads = 0 :=
  have h := runMonitoring_reports_failure
    (MonitoringHost.answering { success := false, message := some "rate limited" })
    World.initial "rate limited" rfl rfl rfl rfl rfl rfl
  ⟨rfl, rfl, by decide, h.2.2.1, h.2.2.2.2.2.1 (by decide), h.2.2.2.2.2.2.2.2.1⟩

/-! ## The display updater -/

/-- C3. For a snapshot, `updateCharts` gives each existing chart the names and
counts of the leading entries of its sequence, at most 10 for the company
chart and at most 8 for the source chart, in sequence order and index by
index from the same entry, and redraws it; a chart that does not exist is
skipped and the other one is still updated. -/
theorem updateCharts_leading_entries (s : StatsSnapshot) (w : World) :
    exec (updateCharts s.toData) w =
      (.ok (), { w with
        companyChart := w.companyChart.map fun c =>
          { labels := (s.company_mentions.take 10).map fun item => item.company_name
            data := (s.company_mentions.take 10).map fun item => item.count
            updates := c.updates + 1 }
        sourceChart := w.sourceChart.map fun c =>
          { labels := (s.source_mentions.take 8).map fun item => item.source
            data := (s.source_mentions.take 8).map fun item => item.count
            updates := c.updates + 1 } }) ∧
    (s.company_mentions.take 10).length = min s.company_mentions.length 10 ∧
    (s.source_mentions.take 8).length = min s.source_mentions.length 8 ∧
    (∀ i : Nat,
      ((s.company_mentions.take 10).map fun item => item.company_name)[i]? =
        (if i < 10 then s.company_mentions[i]?.map fun item => item.company_name else none) ∧
      ((s.company_mentions.take 10).map fun item => item.count)[i]? =
        (if i < 10 then s.company_mentions[i]?.map fun item => item.count else none)) ∧
    (∀ i : Nat,
      ((s.source_mentions.take 8).map fun item => item.source)[i]? =
        (if i < 8 then s.source_mentions[i]?.map fun item => item.source else none) ∧
      ((s.source_mentions.take 8).map fun item => item.count)[i]? =
        (if i < 8 then s.source_mentions[i]?.map fun item => item.count else none)) := by
  refine ⟨?_, ?_, ?_, ?_, ?_⟩
  · obtain ⟨a1, a2, a3, a4, a5, a6, a7, c1, c2, c3, h1, h2, a8, a9, a10, a11⟩ := w
    cases h1 <;> cases h2 <;> rfl
  · simp [List.length_take, Nat.min_comm]
  · simp [List.length_take, Nat.min_comm]
  · intro i
    simp only [List.getElem?_map, List.getElem?_take]
    constructor <;> split <;> simp_all
  · intro i
    simp only [List.getElem?_map, List.getElem?_take]
    constructor <;> split <;> simp_all

/-- The text of counts inside and outside the plain-decimal range. -/
theorem jsNumberToString_examples :
    jsNumberToString 42 = "42" ∧ jsNumberToString (-5) = "-5" ∧
    jsNumberToString (2 ^ 53 + 1) = "9007199254740992" ∧
    jsNumberToString (2 ^ 60) = "1152921504606847000" ∧
    jsNumberToString (10 ^ 21) = "1e+21" := by
  decide!

/-- Integers of magnitude below 2^53 are shown in plain decimal. -/
theorem jsNumberToString_safe (n : Int) (h : n.natAbs < 2 ^ 53) :
    jsNumberToString n = toString n := by
  simp only [jsNumberToString, h, if_true]

/-- C4. For a snapshot, `updateStatsCards` returns normally and sets the text
of each card that exists to the text of `total_mentions`, of
`recent_mentions` and of the length of `company_mentions`; a card that does
not exist stays absent and nothing else changes, so with no card present the
state is unchanged.  For counts of magnitude below 2^53 the text is the
plain decimal; the worked example gives "42", "5" and "1", and a total of
10^21 is shown as "1e+21". -/
theorem updateStatsCards_sets_cards (s : StatsSnapshot) (w : World) :
    exec (updateStatsCards s.toData) w =
      (.ok (), { w with
        cardPrimary := w.cardPrimary.map fun _ => jsNumberToString s.total_mentions
        cardSuccess := w.cardSuccess.map fun _ => jsNumberToString s.recent_mentions
        cardWarning := w.cardWarning.map fun _ => toString s.company_mentions.length }) ∧
    (s.total_mentions.natAbs < 2 ^ 53 → s.recent_mentions.natAbs < 2 ^ 53 →
      exec (updateStatsCards s.toData) w =
        (.ok (), { w with
          cardPrimary := w.cardPrimary.map fun _ => toString s.total_mentions
          cardSuccess := w.cardSuccess.map fun _ => toString s.recent_mentions
          cardWarning := w.cardWarning.map fun _ => toString s.company_mentions.length })) ∧
    exec (updateStatsCards s.toData)
        { w with cardPrimary := none, cardSuccess := none, cardWarning := none } =
      (.ok (), { w with cardPrimary := none, cardSuccess := none, cardWarning := none }) ∧
    exec (updateStatsCards acmeSnapshot.toData) World.dashboard =
      (.ok (), { World.dashboard with
        cardPrimary := some "42", cardSuccess := some "5", cardWarning := some "1" }) ∧
    exec (updateStatsCards hugeSnapshot.toData) World.dashboard =
      (.ok (), { World.dashboard with
        cardPrimary := some "1e+21", cardSuccess := some "5", cardWarning := some "1" }) := by
  have key : exec (updateStatsCards s.toData) w =
      (.ok (), { w with
        cardPrimary := w.cardPrimary.map fun _ => jsNumberToString s.total_mentions
        cardSuccess := w.cardSuccess.map fun _ => jsNumberToString s.recent_mentions
        cardWarning := w.cardWarning.map fun _ => toString s.company_mentions.length }) := by
    obtain ⟨a1, a2, a3, a4, a5, a6, a7, c1, c2, c3, h1, h2, a8, a9, a10, a11⟩ := w
    cases c1 <;> cases c2 <;> cases c3 <;> rfl
  refine ⟨key, ?_, rfl, rfl, ?_⟩
  · intro htotal hrecent
    rw [key, jsNumberToString_safe _ htotal, jsNumberToString_safe _ hrecent]
  · have hbig : jsNumberToString hugeSnapshot.total_mentions = "1e+21" :=
      jsNumberToString_examples.2.2.2.2
    have hkey : exec (updateStatsCards hugeSnapshot.toData) World.dashboard =
        (.ok (), { World.dashboard with
          cardPrimary := some (jsNumberToString hugeSnapshot.total_mentions)
          cardSuccess := some "5", cardWarning := some "1" }) := rfl
    rw [hkey, hbig]

/-- The worked example of C4: both counts are below 2^53 and the cards read
"42", "5" and "1". -/
theorem updateStatsCards_sets_cards_witness :
    acmeSnapshot.total_mentions.natAbs < 2 ^ 53 ∧ acmeSnapshot.recent_mentions.natAbs < 2 ^ 53 ∧
    exec (updateStatsCards acmeSnapshot.toData) World.dashboard =
      (.ok (), { World.dashboard with
        cardPrimary := World.dashboard.cardPrimary.map fun _ => toString acmeSnapshot.total_mentions
        cardSuccess := World.dashboard.cardSuccess.map fun _ => toString acmeSnapshot.recent_mentions
        cardWarning := World.dashboard.cardWarning.map fun _ =>
          toString acmeSnapshot.company_mentions.length }) :=
  ⟨by decide, by decide,
    (updateStatsCards_sets_cards acmeSnapshot World.dashboard).2.1 (by decide) (by decide)⟩

/-- C9 (as stated). For a snapshot in which a company has two entries, the
third card does not show the count of distinct companies: it shows "2" where
one company is mentioned. -/
theorem activeCompanies_card_not_distinct_count :
    (exec (refreshStats (StatsHost.answering repeatedCompany.toData)) World.dashboard).2.cardWarning
      = some "2" ∧
    distinctCompanies repeatedCompany = 1 ∧
    (exec (refreshStats (StatsHost.answering repeatedCompany.toData)) World.dashboard).2.cardWarning
      ≠ some (toString (distinctCompanies repeatedCompany)) := by
  decide

/-- C9 (amended). For every snapshot, the third card updated on a refresh
tick shows the number of entries of `company_mentions`; this is the count of
distinct companies whenever no two entries share a `company_name`. -/
theorem activeCompanies_card_entry_count (s : StatsSnapshot) (w : World) :
    (exec (refreshStats (StatsHost.answering s.toData)) w).2.cardWarning =
      w.cardWarning.map (fun _ => toString s.company_mentions.length) ∧
    ((s.company_mentions.map fun item => item.company_name).Nodup →
      (exec (refreshStats (StatsHost.answering s.toData)) w).2.cardWarning =
        w.cardWarning.map (fun _ => toString (distinctCompanies s))) := by
  have key : (exec (refreshStats (StatsHost.answering s.toData)) w).2.cardWarning =
      w.cardWarning.map (fun _ => toString s.company_mentions.length) := by
    obtain ⟨a1, a2, a3, a4, a5, a6, a7, c1, c2, c3, h1, h2, a8, a9, a10, a11⟩ := w
    cases c1 <;> cases c2 <;> cases c3 <;> cases h1 <;> cases h2 <;> rfl
  refine ⟨key, fun hnodup => ?_⟩
  rw [key, distinctCompanies, hnodup.dedup, List.length_map]

/-- An instance of C9 (amended): the worked example has one entry and one
company. -/
theorem activeCompanies_card_entry_count_witness :
    (acmeSnapshot.company_mentions.map fun item => item.company_name).Nodup ∧
    (exec (refreshStats (StatsHost.answering acmeSnapshot.toData)) World.dashboard).2.cardWarning =
      World.dashboard.cardWarning.map (fun _ => toString (distinctCompanies acmeSnapshot)) :=
  ⟨by decide, (activeCompanies_card_entry_count acmeSnapshot World.dashboard).2 (by decide)⟩

/-! ## The refresh scheduler -/

/-- C6. Whatever the stats request does, `refreshStats` returns normally,
adds no overlay element, and leaves the timer handle and the pending timers
as they were.  A rejected fetch, a body that is not JSON and a display update
that throws on the payload each end in one `console.error` line; with an
unreachable endpoint the interval timer keeps ticking. -/
theorem refreshStats_swallows_failures (host : StatsHost) (w : World) :
    (exec (refreshStats host) w).1 = .ok () ∧
    (exec (refreshStats host) w).2.body = w.body ∧
    (exec (refreshStats host) w).2.nodeCount = w.nodeCount ∧
    (exec (refreshStats host) w).2.refreshInterval = w.refreshInterval ∧
    (exec (refreshStats host) w).2.timers = w.timers ∧
    (∀ e : JsError, exec (refreshStats { host with fetch := .error e }) w =
      (.ok (), { w with
        requests := w.requests ++ ["/api/stats"]
        console := w.console ++ [("error", "Error refreshing stats: " ++ e.message)] })) ∧
    (∀ e : JsError, exec (refreshStats { fetch := .ok (), json := .error e }) w =
      (.ok (), { w with
        requests := w.requests ++ ["/api/stats"]
        console := w.console ++ [("error", "Error refreshing stats: " ++ e.message)] })) ∧
    exec (refreshStats (StatsHost.answering truncatedData)) World.dashboard =
      (.ok (), { World.dashboard with
        cardPrimary := some "42", cardSuccess := some "5"
        requests := ["/api/stats"]
        console := [("error", "Error refreshing stats: " ++
          "Cannot read properties of undefined (reading length)")] }) ∧
    (elapse (fun _ => StatsHost.unreachable) 90000 (exec startAutoRefresh World.initial).2).requests =
      ["/api/stats", "/api/stats", "/api/stats"] := by
  obtain ⟨h1, -, -, -, h5, -, h7, h8, -, -⟩ := refreshStats_shell host w
  refine ⟨h1, h7, h8, ?_, h5, fun e => rfl, fun e => rfl, rfl, rfl⟩
  exact (refreshStats_shell host w).2.1

/-- Comparing two defined handles compares their ids. -/
theorem some_bne_some (a b : Nat) : (some a != some b) = (a != b) := by
  by_cases h : a = b
  · subst h
    simp
  · have h1 : (a != b) = true := by simpa using h
    have h2 : (some a != some b) = true := by
      rw [bne_iff_ne]
      intro h3
      exact h (Option.some.inj h3)
    rw [h1, h2]

/-- The function `stopAutoRefresh` returns normally; with a truthy handle it
cancels the timers under that id, otherwise it changes nothing. -/
theorem exec_stopAutoRefresh (w : World) :
    exec stopAutoRefresh w =
      (.ok (), if handleTruthy w.refreshInterval then
        { w with timers := w.timers.filter fun t => some t.id != w.refreshInterval } else w) := by
  show StateT.run (ExceptT.run (if handleTruthy w.refreshInterval = true then
    clearInterval w.refreshInterval else pure ())) w = _
  split <;> rfl

/-- C10. `startAutoRefresh` always registers a new interval timer that runs
the refresh tick every 30000 ms and stores its id in the handle, without
cancelling anything: after two calls both timers are pending, under
different ids, and the handle holds the id of the second.  A following
`stopAutoRefresh` cancels exactly the timers with the id in the handle, so
the first timer stays pending and keeps ticking. -/
theorem startAutoRefresh_no_dedup (w : World) :
    exec startAutoRefresh w =
      (.ok (), { w with
        timers := w.timers ++ [refreshTimer w]
        timerCount := w.timerCount + 1
        refreshInterval := some (refreshTimer w).id }) ∧
    (refreshTimer w).repeating = true ∧ (refreshTimer w).delay = 30000 ∧
    (refreshTimer w).callback = .refreshTick ∧
    (exec startAutoRefresh (exec startAutoRefresh w).2).2.timers =
      w.timers ++ [refreshTimer w, refreshTimer (exec startAutoRefresh w).2] ∧
    (refreshTimer w).id ≠ (refreshTimer (exec startAutoRefresh w).2).id ∧
    (exec startAutoRefresh (exec startAutoRefresh w).2).2.refreshInterval =
      some (refreshTimer (exec startAutoRefresh w).2).id ∧
    (exec stopAutoRefresh (exec startAutoRefresh (exec startAutoRefresh w).2).2).2.timers =
      (w.timers.filter fun t => t.id != (refreshTimer (exec startAutoRefresh w).2).id) ++
        [refreshTimer w] ∧
    (exec stopAutoRefresh (exec startAutoRefresh (exec startAutoRefresh w).2).2).2.refreshInterval =
      some (refreshTimer (exec startAutoRefresh w).2).id ∧
    (elapse (fun _ => StatsHost.unreachable) 30000
      (exec startAutoRefresh (exec startAutoRefresh World.initial).2).2).requests =
        ["/api/stats", "/api/stats"] ∧
    (elapse (fun _ => StatsHost.unreachable) 30000
      (exec stopAutoRefresh (exec startAutoRefresh (exec startAutoRefresh World.initial).2).2).2).requests =
        ["/api/stats"] := by
  refine ⟨rfl, rfl, rfl, rfl, ?_, ?_, rfl, ?_, ?_, rfl, rfl⟩
  · show w.timers ++ [refreshTimer w] ++ [_] = _
    simp
    rfl
  · show w.timerCount + 1 ≠ w.timerCount + 1 + 1
    omega
  · rw [exec_stopAutoRefresh]
    show (List.filter (fun t => some t.id != some (w.timerCount + 1 + 1))
      (w.timers ++ [refreshTimer w] ++ [refreshTimer (exec startAutoRefresh w).2])) = _
    rw [List.filter_append, List.filter_append]
    have h1 : (refreshTimer w).id = w.timerCount + 1 := rfl
    have h2 : (refreshTimer (exec startAutoRefresh w).2).id = w.timerCount + 1 + 1 := rfl
    simp only [List.filter_cons, List.filter_nil, h1, h2]
    simp only [some_bne_some]
    simp
  · rw [exec_stopAutoRefresh]
    rfl

/-! ## The notification presenter -/

/-- C8. For every kind, message and duration, `showAlert` returns normally
and appends exactly one overlay element to the document body, with one
removal timer whose delay is the duration (5000 ms when the argument is
omitted).  The timer callback never throws; run in any state it leaves no
element with that identity in the document, and run after the user dismissed
the element it changes nothing.  Once the duration has elapsed, with no user
input, the element is no longer in the document; `showAlert('success', 'Done')`
on an empty page followed by 5000 ms leaves no overlay element. -/
theorem showAlert_overlay_lifecycle (type message : String) (duration : Option Nat)
    (w : World) :
    exec (showAlert type message duration) w = (.ok (), alerted w type message duration) ∧
    (alerted w type message duration).body = w.body ++ [alertNode w type message] ∧
    (alerted w type message duration).timers = w.timers ++ [alertTimer w duration] ∧
    (alertTimer w duration).delay = duration.getD 5000 ∧
    (alertTimer w none).delay = 5000 ∧
    (alertTimer w duration).callback = .removeAlert (alertNode w type message).id ∧
    (∀ w' : World, (exec (alertTimeout (alertNode w type message).id) w').1 = .ok () ∧
      ((exec (alertTimeout (alertNode w type message).id) w').2.body.any
        fun x => x.id == (alertNode w type message).id) = false) ∧
    (∀ w' : World,
      exec (alertTimeout (alertNode w type message).id)
          (exec (dismissAlert (alertNode w type message).id) w').2 =
        (.ok (), (exec (dismissAlert (alertNode w type message).id) w').2)) ∧
    (∀ (stats : Nat → StatsHost) (extra : Nat),
      ((elapse stats (duration.getD 5000 + extra) (alerted w type message duration)).body.any
        fun x => x.id == (alertNode w type message).id) = false) ∧
    (∀ stats : Nat → StatsHost,
      (elapse stats 5000 (exec (showAlert "success" "Done" none) World.initial).2).body = []) := by
  refine ⟨rfl, rfl, rfl, rfl, rfl, rfl, ?_, ?_, ?_, ?_⟩
  · intro w'
    refine ⟨by rw [exec_alertTimeout], ?_⟩
    rw [exec_alertTimeout_body]
    simp
  · intro w'
    rw [exec_alertTimeout]
    have hgone : ((exec (dismissAlert (alertNode w type message).id) w').2.body.any
        fun x => x.id == (alertNode w type message).id) = false := by
      show ((w'.body.filter fun x => x.id != (alertNode w type message).id).any
        fun x => x.id == (alertNode w type message).id) = false
      simp
    rw [hgone]
    rfl
  · intro stats extra
    have h := elapse_removes stats (alertNode w type message).id (duration.getD 5000 + extra)
      (alerted w type message duration)
      ⟨alertTimer w duration, by simp [alerted], by simp [alerted, alertTimer], rfl⟩
    rw [Bool.eq_false_iff]
    intro hany
    obtain ⟨x, hx, hid⟩ := List.any_eq_true.mp hany
    exact h x hx (by simpa using hid)
  · intro stats
    rfl


end Monitor
